/-
Verification of the ReAct agent demo repository.

Shallow embedding of the core data model and operations:
  * the conversation message log and the agent/tool loop
    (src/documentations/src/agents/react_agent.py),
  * the calculator tool (src/src/tools/calculator.py),
  * the simulated search and weather tools
    (src/documentations/src/tools/search.py),
  * the demo driver's call pattern (src/main.py).

The external graph executor (the LangGraph library) is not part of the
repository; its loop semantics are modelled from the spec (sections 4.4,
5 and 8) as a fuel-bounded step function whose fuel is the configured
recursion limit.  The external language model is a parameter: a function
from the input message list to the content and tool calls of the next
assistant message, exactly the shape of the `llm_with_tools.invoke` call
in `_agent_node`.
-/
import Mathlib

namespace ReactAgent

/-- A tool call as produced by the model: tool name, argument mapping and
call identifier (langchain `ToolCall`). -/
structure ToolCall where
  name : String
  args : List (String × String)
  id : String
deriving DecidableEq

/-- The message union used by the agent state
(langchain System/Human/AI/Tool messages).  Only assistant messages carry
tool calls, matching langchain where only `AIMessage` has a `tool_calls`
attribute. -/
inductive Message where
  | system (content : String)
  | human (content : String)
  | assistant (content : String) (tool_calls : List ToolCall)
  | tool (content : String) (tool_call_id : String)
deriving DecidableEq

/-- The `.content` attribute of a message. -/
def contentOf : Message → String
  | .system c => c
  | .human c => c
  | .assistant c _ => c
  | .tool c _ => c

/-- Does the message satisfy `isinstance(m, SystemMessage)`? -/
def isSystemB : Message → Bool
  | .system _ => true
  | _ => false

/-- Number of System messages in a log. -/
def countSystem (msgs : List Message) : Nat :=
  msgs.countP isSystemB

/-- The external language model boundary: from the model's input
conversation to the content and tool calls of the returned `AIMessage`
(`self.llm_with_tools.invoke(messages)` in `_agent_node`). -/
def Model : Type := List Message → String × List ToolCall

/-- The external tool executor used by the ToolNode: maps one tool call to
the string output of the named tool. -/
def ExecTool : Type := ToolCall → String

/-- `ReActAgent._should_continue`: look at `state["messages"][-1]`; return
`"continue"` when it has a truthy `tool_calls` attribute (an assistant
message with a non-empty tool-call list), `"end"` otherwise.  In Python an
empty log would raise an IndexError on the `[-1]` index; the embedding
totalises that unreachable case to `"end"`. -/
def shouldContinue (msgs : List Message) : String :=
  match msgs.getLast? with
  | some (.assistant _ tcs) => if tcs.isEmpty then "end" else "continue"
  | _ => "end"

/-- The input handed to the model inside `ReActAgent._agent_node`:
`if not messages or not isinstance(messages[0], SystemMessage):
   messages = [SystemMessage(content=self.system_prompt)] + list(messages)`. -/
def modelInput (prompt : String) (msgs : List Message) : List Message :=
  match msgs with
  | .system _ :: _ => msgs
  | _ => .system prompt :: msgs

/-- `ReActAgent._agent_node`: invoke the model on `modelInput` and return
the state update `{"messages": [response]}` — a single assistant
message. -/
def agentNode (prompt : String) (model : Model) (msgs : List Message) : List Message :=
  [Message.assistant (model (modelInput prompt msgs)).1 (model (modelInput prompt msgs)).2]

/-- The tool calls of the latest message (what the ToolNode executes). -/
def lastToolCalls (msgs : List Message) : List ToolCall :=
  match msgs.getLast? with
  | some (.assistant _ tcs) => tcs
  | _ => []

/-- The ToolNode's state update: one ToolResult message per requested tool
call, in order, each carrying the call identifier it answers. -/
def toolNode (execTool : ExecTool) (tcs : List ToolCall) : List Message :=
  tcs.map (fun tc => Message.tool (execTool tc) tc.id)

/-- A run of the loop aborted by the recursion-depth guard. -/
inductive RunError where
  | recursionLimit
deriving DecidableEq

/-- Modelled from the spec: the external graph executor (spec sections 4.4
and 8) driving the compiled two-node graph of `ReActAgent._build_graph`.
Each iteration enters the agent node, appends its update (the
`add_messages` reducer appends new messages), branches on
`_should_continue`, and on `"continue"` appends the ToolNode's results and
loops back; the configured recursion limit is the fuel, and exhausting it
raises the library's recursion error instead of looping forever. -/
def runLoop (prompt : String) (model : Model) (execTool : ExecTool) :
    Nat → List Message → Except RunError (List Message)
  | 0, _ => .error .recursionLimit
  | fuel + 1, msgs =>
    let msgs' := msgs ++ agentNode prompt model msgs
    if shouldContinue msgs' = "continue" then
      runLoop prompt model execTool fuel (msgs' ++ toolNode execTool (lastToolCalls msgs'))
    else
      .ok msgs'

/-- The model inputs fed to the language model at each entry of the agent
node during `runLoop`, in order (an instrumented trace of the same
recursion). -/
def runInputs (prompt : String) (model : Model) (execTool : ExecTool) :
    Nat → List Message → List (List Message)
  | 0, _ => []
  | fuel + 1, msgs =>
    let inp := modelInput prompt msgs
    let msgs' := msgs ++ agentNode prompt model msgs
    if shouldContinue msgs' = "continue" then
      inp :: runInputs prompt model execTool fuel (msgs' ++ toolNode execTool (lastToolCalls msgs'))
    else
      [inp]

/-- `ReActAgent.invoke`: start from `{"messages": [HumanMessage(query)]}`,
run the graph, and return `result["messages"][-1].content`.  The log on a
successful run is never empty (it ends with the final assistant message),
so the `getLastD` default is never used. -/
def invoke (prompt : String) (model : Model) (execTool : ExecTool)
    (limit : Nat) (query : String) : Except RunError String :=
  match runLoop prompt model execTool limit [Message.human query] with
  | .ok log => .ok (contentOf (log.getLastD (Message.human query)))
  | .error e => .error e

/-- The agent node's update is one assistant message built from the model's
answer on `modelInput`. -/
theorem agentNode_eq (prompt : String) (model : Model) (msgs : List Message) :
    agentNode prompt model msgs =
      [Message.assistant (model (modelInput prompt msgs)).1
        (model (modelInput prompt msgs)).2] := rfl

/-- Branching after an agent step only looks at the appended assistant
message. -/
theorem shouldContinue_concat (msgs : List Message) (c : String) (tcs : List ToolCall) :
    shouldContinue (msgs ++ [Message.assistant c tcs]) =
      if tcs.isEmpty then "end" else "continue" := by
  unfold shouldContinue
  rw [List.getLast?_concat]

/-- C3: the continuation predicate, on any state whose latest message is an
Assistant message, returns "continue" iff that message carries at least one
tool call, and "end" otherwise.  (It is a pure function of the state.) -/
theorem should_continue_iff_tool_calls (msgs : List Message) (c : String)
    (tcs : List ToolCall) (h : msgs.getLast? = some (Message.assistant c tcs)) :
    (shouldContinue msgs = "continue" ↔ tcs ≠ []) ∧
    (shouldContinue msgs = "end" ↔ tcs = []) := by
  unfold shouldContinue
  rw [h]
  rcases tcs with _ | ⟨tc, tcs⟩ <;> simp

/-- Witness for C3: on a concrete state ending in an assistant message with
one tool call the predicate yields "continue", and with zero tool calls it
yields "end". -/
theorem should_continue_iff_tool_calls_witness :
    (shouldContinue [Message.human "hi",
        Message.assistant "use tool" [⟨"calculator", [("expression", "2+2")], "c1"⟩]]
      = "continue") ∧
    (shouldContinue [Message.human "hi", Message.assistant "done" []] = "end") := by
  refine ⟨?_, ?_⟩
  · have h := should_continue_iff_tool_calls
      [Message.human "hi",
        Message.assistant "use tool" [⟨"calculator", [("expression", "2+2")], "c1"⟩]]
      "use tool" [⟨"calculator", [("expression", "2+2")], "c1"⟩] (by decide)
    exact h.1.mpr (by decide)
  · have h := should_continue_iff_tool_calls
      [Message.human "hi", Message.assistant "done" []] "done" [] (by decide)
    exact h.2.mpr rfl

/-- C2: for a model stub that requests at least one tool call on every
reasoning step, the loop driver never reaches the Done state: for every
configured bound it stops with the recursion-limit error instead of
looping forever. -/
theorem loop_stops_at_recursion_limit (prompt : String) (model : Model)
    (execTool : ExecTool) (halways : ∀ input, (model input).2 ≠ []) :
    ∀ fuel msgs, runLoop prompt model execTool fuel msgs = .error .recursionLimit := by
  intro fuel
  induction fuel with
  | zero => intro msgs; rfl
  | succ n ih =>
    intro msgs
    have h2 : ((model (modelInput prompt msgs)).2).isEmpty = false := by
      simpa [List.isEmpty_iff] using halways (modelInput prompt msgs)
    unfold runLoop
    simp only [agentNode_eq, shouldContinue_concat, h2, Bool.false_eq_true, if_false, if_true]
    exact ih _

/-- Witness for C2: a concrete scripted stub that always requests the
calculator makes the driver stop with the recursion-limit error at the
default configured bound of 25. -/
theorem loop_stops_at_recursion_limit_witness :
    runLoop "You are a helpful assistant."
      (fun _ => ("thinking", [⟨"calculator", [("expression", "2+2")], "c1"⟩]))
      (fun _ => "Result: 4") 25 [Message.human "loop forever"]
      = .error .recursionLimit :=
  loop_stops_at_recursion_limit _ _ _ (fun _ => by simp) 25 _

/-- Counting System messages distributes over append. -/
theorem countSystem_append (a b : List Message) :
    countSystem (a ++ b) = countSystem a + countSystem b := by
  simp [countSystem, List.countP_append]

/-- The agent node's update contains no System message. -/
theorem countSystem_agentNode (prompt : String) (model : Model) (msgs : List Message) :
    countSystem (agentNode prompt model msgs) = 0 := rfl

/-- The ToolNode's update contains no System message. -/
theorem countSystem_toolNode (execTool : ExecTool) (tcs : List ToolCall) :
    countSystem (toolNode execTool tcs) = 0 := by
  induction tcs with
  | nil => rfl
  | cons tc tcs ih =>
    simp [toolNode, countSystem, List.countP_cons, isSystemB]

/-- When the state has no System message, the agent node prepends exactly
the system prompt for the model's input. -/
theorem modelInput_of_no_system (prompt : String) (msgs : List Message)
    (h : countSystem msgs = 0) :
    modelInput prompt msgs = Message.system prompt :: msgs := by
  match msgs with
  | [] => rfl
  | .system s :: rest =>
    exact absurd h (by simp [countSystem, List.countP_cons, isSystemB])
  | .human _ :: rest => rfl
  | .assistant _ _ :: rest => rfl
  | .tool _ _ :: rest => rfl

/-- Invariant: starting from a state with no System message, every model
input produced along the run carries exactly one System message, at
index 0. -/
theorem runInputs_one_system (prompt : String) (model : Model) (execTool : ExecTool) :
    ∀ fuel msgs, countSystem msgs = 0 →
      ∀ inp ∈ runInputs prompt model execTool fuel msgs,
        countSystem inp = 1 ∧ inp.head? = some (Message.system prompt) := by
  intro fuel
  induction fuel with
  | zero => intro msgs _ inp hmem; simp [runInputs] at hmem
  | succ n ih =>
    intro msgs hzero inp hmem
    have hinp : modelInput prompt msgs = Message.system prompt :: msgs :=
      modelInput_of_no_system prompt msgs hzero
    have hone : countSystem (modelInput prompt msgs) = 1 ∧
        (modelInput prompt msgs).head? = some (Message.system prompt) := by
      rw [hinp]
      constructor
      · simp [countSystem, List.countP_cons, isSystemB] at hzero ⊢
        exact hzero
      · rfl
    have hnext : countSystem ((msgs ++ agentNode prompt model msgs) ++
        toolNode execTool (lastToolCalls (msgs ++ agentNode prompt model msgs))) = 0 := by
      rw [countSystem_append, countSystem_append, countSystem_agentNode,
        countSystem_toolNode, hzero]
    unfold runInputs at hmem
    by_cases hc : shouldContinue (msgs ++ agentNode prompt model msgs) = "continue"
    · rw [if_pos hc] at hmem
      rcases List.mem_cons.mp hmem with heq | hrest
      · exact heq ▸ hone
      · exact ih _ hnext inp hrest
    · rw [if_neg hc] at hmem
      rcases List.mem_singleton.mp hmem with heq
      exact heq ▸ hone

/-- C4: on every entry to the reasoning step, the System message is
injected into the model's input only when it is not already at index 0
(part 1: when index 0 already holds a System message, the input is the
state unchanged), and along any run started from a single Human message
every model input carries exactly one System message, at index 0 — never
duplicated (part 2). -/
theorem system_prompt_injected_at_most_once (prompt : String) (model : Model)
    (execTool : ExecTool) :
    (∀ msgs s, msgs.head? = some (Message.system s) → modelInput prompt msgs = msgs) ∧
    (∀ fuel query, ∀ inp ∈ runInputs prompt model execTool fuel [Message.human query],
      countSystem inp = 1 ∧ inp.head? = some (Message.system prompt)) := by
  constructor
  · intro msgs s h
    match msgs, h with
    | .system s :: rest, _ => rfl
  · intro fuel query inp hmem
    exact runInputs_one_system prompt model execTool fuel [Message.human query] rfl inp hmem

/-- Witness for C4: with a System message already at index 0 the input is
unchanged, and on a concrete one-step run the single model input holds
exactly one System message, at index 0. -/
theorem system_prompt_injected_at_most_once_witness :
    (modelInput "SYS" [Message.system "SYS", Message.human "q"] =
      [Message.system "SYS", Message.human "q"]) ∧
    (countSystem [Message.system "SYS", Message.human "hi"] = 1 ∧
      ([Message.system "SYS", Message.human "hi"] : List Message).head? =
        some (Message.system "SYS")) := by
  constructor
  · exact (system_prompt_injected_at_most_once "SYS" (fun _ => ("ok", []))
      (fun _ => "")).1 [Message.system "SYS", Message.human "q"] "SYS" rfl
  · exact (system_prompt_injected_at_most_once "SYS" (fun _ => ("ok", []))
      (fun _ => "")).2 1 "hi" [Message.system "SYS", Message.human "hi"] (by decide)

/-- Along a successful run, the stored log gains no System message. -/
theorem runLoop_countSystem (prompt : String) (model : Model) (execTool : ExecTool) :
    ∀ fuel msgs log, runLoop prompt model execTool fuel msgs = .ok log →
      countSystem log = countSystem msgs := by
  intro fuel
  induction fuel with
  | zero => intro msgs log h; exact absurd h (by simp [runLoop])
  | succ n ih =>
    intro msgs log h
    unfold runLoop at h
    by_cases hc : shouldContinue (msgs ++ agentNode prompt model msgs) = "continue"
    · rw [if_pos hc] at h
      rw [ih _ _ h, countSystem_append, countSystem_append, countSystem_agentNode,
        countSystem_toolNode]
      omega
    · rw [if_neg hc] at h
      cases h
      rw [countSystem_append, countSystem_agentNode]
      omega

/-- C10: every call of the agent node returns an update of exactly one
message — the model's assistant response — and the System message prepended
for the model's input is never persisted: the stored log of any completed
run started from a Human message contains no System message. -/
theorem agent_update_is_single_message_no_system (prompt : String) (model : Model)
    (execTool : ExecTool) :
    (∀ msgs, (agentNode prompt model msgs).length = 1 ∧
      ∃ c tcs, agentNode prompt model msgs = [Message.assistant c tcs]) ∧
    (∀ fuel query log,
      runLoop prompt model execTool fuel [Message.human query] = .ok log →
        countSystem log = 0) := by
  constructor
  · intro msgs
    exact ⟨rfl, (model (modelInput prompt msgs)).1, (model (modelInput prompt msgs)).2, rfl⟩
  · intro fuel query log h
    rw [runLoop_countSystem prompt model execTool fuel _ log h]
    rfl

/-- Witness for C10: a concrete completed run stores a log with no System
message. -/
theorem agent_update_is_single_message_no_system_witness :
    countSystem [Message.human "q", Message.assistant "done" []] = 0 :=
  (agent_update_is_single_message_no_system "SYS" (fun _ => ("done", []))
    (fun _ => "")).2 1 "q" [Message.human "q", Message.assistant "done" []] rfl

/-- A successful run ends with an assistant message carrying no tool
calls. -/
theorem runLoop_ok_shape (prompt : String) (model : Model) (execTool : ExecTool) :
    ∀ fuel msgs log, runLoop prompt model execTool fuel msgs = .ok log →
      ∃ pre c, log = pre ++ [Message.assistant c []] := by
  intro fuel
  induction fuel with
  | zero => intro msgs log h; exact absurd h (by simp [runLoop])
  | succ n ih =>
    intro msgs log h
    unfold runLoop at h
    by_cases hc : shouldContinue (msgs ++ agentNode prompt model msgs) = "continue"
    · rw [if_pos hc] at h
      exact ih _ _ h
    · rw [if_neg hc] at h
      cases h
      rw [agentNode_eq]
      refine ⟨msgs, (model (modelInput prompt msgs)).1, ?_⟩
      have hempty : ((model (modelInput prompt msgs)).2).isEmpty = true := by
        by_contra hne
        apply hc
        rw [agentNode_eq, shouldContinue_concat, if_neg (by simpa using hne)]
      rw [List.isEmpty_iff.mp hempty]

/-- C8: when the run started from the single Human message reaches the
terminal state, the final message of the log is an Assistant message with
no tool calls and `invoke` returns exactly its text content. -/
theorem invoke_returns_final_assistant_content (prompt : String) (model : Model)
    (execTool : ExecTool) (limit : Nat) (query : String) (log : List Message)
    (h : runLoop prompt model execTool limit [Message.human query] = .ok log) :
    ∃ c, log.getLast? = some (Message.assistant c []) ∧
      invoke prompt model execTool limit query = .ok c := by
  obtain ⟨pre, c, rfl⟩ := runLoop_ok_shape prompt model execTool limit _ log h
  refine ⟨c, List.getLast?_concat pre, ?_⟩
  unfold invoke
  rw [h]
  show Except.ok (contentOf ((pre ++ [Message.assistant c []]).getLastD (Message.human query)))
    = Except.ok c
  rw [List.getLastD_concat]
  rfl

/-- Witness for C8: with a stub model that immediately answers "42",
`invoke` returns "42", the content of the final assistant message. -/
theorem invoke_returns_final_assistant_content_witness :
    ∃ c, ([Message.human "q", Message.assistant "42" []] : List Message).getLast? =
        some (Message.assistant c []) ∧
      invoke "SYS" (fun _ => ("42", [])) (fun _ => "") 1 "q" = .ok c :=
  invoke_returns_final_assistant_content "SYS" (fun _ => ("42", [])) (fun _ => "")
    1 "q" [Message.human "q", Message.assistant "42" []] rfl

end ReactAgent

namespace Tools

/-- `needle` occurs as a contiguous substring of `hay`. -/
def strInc (needle hay : String) : Prop :=
  ∃ a b : List Char, a ++ needle.data ++ b = hay.data

/-- The middle of a three-part concatenation is a substring. -/
theorem strInc_mid (a needle b : String) : strInc needle (a ++ needle ++ b) :=
  ⟨a.data, b.data, by simp⟩

/-- A substring survives prepending. -/
theorem strInc_append_left (pre needle hay : String) (h : strInc needle hay) :
    strInc needle (pre ++ hay) := by
  obtain ⟨x, y, hxy⟩ := h
  exact ⟨pre.data ++ x, y, by simp [hxy]⟩

/-- A substring survives appending. -/
theorem strInc_append_right (needle hay post : String) (h : strInc needle hay) :
    strInc needle (hay ++ post) := by
  obtain ⟨x, y, hxy⟩ := h
  refine ⟨x, y ++ post.data, ?_⟩
  rw [String.data_append, ← hxy]
  simp

/-- Python `str.lower` (ASCII fragment, which covers every key in the
tables below). -/
def pyLower (s : String) : String := ⟨s.data.map Char.toLower⟩

/-- Helper for `pyTitle`: uppercase an alphabetic character that starts a
run of letters, lowercase the rest; the Bool records whether the previous
character was alphabetic. -/
def titleAux : Bool → List Char → List Char
  | _, [] => []
  | prevAlpha, c :: cs =>
    (if c.isAlpha then (if prevAlpha then c.toLower else c.toUpper) else c) ::
      titleAux c.isAlpha cs

/-- Python `str.title` (ASCII fragment). -/
def pyTitle (s : String) : String := ⟨titleAux false s.data⟩

/-- One row of the simulated weather table in `get_weather`. -/
structure WeatherData where
  temp : Int
  condition : String
  humidity : Int
deriving DecidableEq

/-- The fixed six-city table `weather_data` of `get_weather`. -/
def weatherData : List (String × WeatherData) :=
  [("new york", ⟨45, "Partly Cloudy", 65⟩),
   ("london", ⟨50, "Rainy", 80⟩),
   ("tokyo", ⟨55, "Clear", 55⟩),
   ("sydney", ⟨75, "Sunny", 60⟩),
   ("paris", ⟨48, "Overcast", 70⟩),
   ("mumbai", ⟨85, "Humid", 85⟩)]

/-- Dictionary lookup `weather_data[city_lower]`. -/
def weatherLookup (key : String) : Option WeatherData :=
  (weatherData.find? (fun p => p.1 = key)).map (fun p => p.2)

/-- Nearest multiple of one tenth of the Celsius value `(t − 32) * 5 / 9`,
in tenths.  Python renders the float with `:.1f` (round half to even on
the binary value); since `(t − 32) * 50 / 9` is never a half-integer for an
integer `t`, rounding to nearest is exact and agrees with the float
formatting on every temperature in the table. -/
def celsiusTenths (t : Int) : Int :=
  Int.fdiv (2 * ((t - 32) * 50) + 9) 18

/-- Render an integer number of tenths as a fixed-point decimal with one
digit after the point (the `:.1f` format). -/
def formatTenths (k : Int) : String :=
  if k < 0 then
    "-" ++ toString ((-k).toNat / 10) ++ "." ++ toString ((-k).toNat % 10)
  else
    toString (k.toNat / 10) ++ "." ++ toString (k.toNat % 10)

/-- The success format string of `get_weather`. -/
def weatherReport (city : String) (d : WeatherData) : String :=
  "Weather in " ++ pyTitle city ++ ":\n- Temperature: " ++ toString d.temp ++
    "°F (" ++ formatTenths (celsiusTenths d.temp) ++ "°C)\n- Condition: " ++
    d.condition ++ "\n- Humidity: " ++ toString d.humidity ++ "%"

/-- `', '.join(weather_data.keys())`. -/
def joinComma : List String → String
  | [] => ""
  | [x] => x
  | x :: y :: rest => x ++ ", " ++ joinComma (y :: rest)

/-- The error text of `get_weather` for an unknown city. -/
def weatherNotAvail (city : String) : String :=
  "Weather data not available for '" ++ city ++ "'. Available cities: " ++
    joinComma (weatherData.map (fun p => p.1))

/-- `get_weather`: case-insensitive lookup of the city in the fixed table;
formatted report on a hit, error text listing the available cities on a
miss (no exception either way). -/
def getWeather (city : String) : String :=
  match weatherLookup (pyLower city) with
  | some d => weatherReport city d
  | none => weatherNotAvail city

/-- C5: for every city string, `get_weather` looks the lowercased city up
in the fixed table; on a hit the result is the formatted report, which
contains the table's temperature followed by "°F" and the one-decimal
Celsius conversion followed by "°C"; on a miss the result is the error
text, which contains the comma-joined list of available cities and is
returned rather than raised. -/
theorem get_weather_lookup (city : String) :
    (∀ d, weatherLookup (pyLower city) = some d →
      getWeather city = weatherReport city d ∧
      strInc (toString d.temp ++ "°F") (getWeather city) ∧
      strInc (formatTenths (celsiusTenths d.temp) ++ "°C") (getWeather city)) ∧
    (weatherLookup (pyLower city) = none →
      getWeather city = weatherNotAvail city ∧
      strInc (joinComma (weatherData.map (fun p => p.1))) (getWeather city)) := by
  constructor
  · intro d hd
    have hw : getWeather city = weatherReport city d := by
      unfold getWeather
      rw [hd]
    refine ⟨hw, ?_, ?_⟩
    · rw [hw]
      unfold weatherReport
      have : "Weather in " ++ pyTitle city ++ ":\n- Temperature: " ++ toString d.temp ++
          "°F (" ++ formatTenths (celsiusTenths d.temp) ++ "°C)\n- Condition: " ++
          d.condition ++ "\n- Humidity: " ++ toString d.humidity ++ "%" =
          ("Weather in " ++ pyTitle city ++ ":\n- Temperature: ") ++
          (toString d.temp ++ "°F") ++
          (" (" ++ formatTenths (celsiusTenths d.temp) ++ "°C)\n- Condition: " ++
            d.condition ++ "\n- Humidity: " ++ toString d.humidity ++ "%") := by
        simp [String.ext_iff]
      rw [this]
      exact strInc_mid _ _ _
    · rw [hw]
      unfold weatherReport
      have : "Weather in " ++ pyTitle city ++ ":\n- Temperature: " ++ toString d.temp ++
          "°F (" ++ formatTenths (celsiusTenths d.temp) ++ "°C)\n- Condition: " ++
          d.condition ++ "\n- Humidity: " ++ toString d.humidity ++ "%" =
          ("Weather in " ++ pyTitle city ++ ":\n- Temperature: " ++ toString d.temp ++
            "°F (") ++
          (formatTenths (celsiusTenths d.temp) ++ "°C") ++
          (")\n- Condition: " ++ d.condition ++ "\n- Humidity: " ++
            toString d.humidity ++ "%") := by
        simp [String.ext_iff]
      rw [this]
      exact strInc_mid _ _ _
  · intro hd
    have hw : getWeather city = weatherNotAvail city := by
      unfold getWeather
      rw [hd]
    refine ⟨hw, ?_⟩
    rw [hw]
    unfold weatherNotAvail
    have : "Weather data not available for '" ++ city ++ "'. Available cities: " ++
        joinComma (weatherData.map (fun p => p.1)) =
        ("Weather data not available for '" ++ city ++ "'. Available cities: ") ++
        joinComma (weatherData.map (fun p => p.1)) ++ "" := by
      simp [String.ext_iff]
    rw [this]
    exact strInc_mid _ _ _

/-- Witness for C5: `get_weather("tokyo")` contains "55°F" and "12.8°C",
and `get_weather("atlantis")` is the error text containing the list of
available cities. -/
theorem get_weather_lookup_witness :
    strInc ("55" ++ "°F") (getWeather "tokyo") ∧
    strInc ("12.8" ++ "°C") (getWeather "tokyo") ∧
    getWeather "atlantis" = weatherNotAvail "atlantis" ∧
    strInc "new york, london, tokyo, sydney, paris, mumbai" (getWeather "atlantis") := by
  have htokyo := (get_weather_lookup "tokyo").1 ⟨55, "Clear", 55⟩ (by decide)
  have hatlantis := (get_weather_lookup "atlantis").2 (by decide)
  refine ⟨?_, ?_, hatlantis.1, ?_⟩
  · have h := htokyo.2.1
    simpa using h
  · have h := htokyo.2.2
    simpa using h
  · have h := hatlantis.2
    simpa using h

/-- Does the char list `hay` start with `needle`? -/
def listStarts : List Char → List Char → Bool
  | _, [] => true
  | [], _ :: _ => false
  | c :: cs, d :: ds => c = d && listStarts cs ds

/-- Python's `needle in hay` substring test, on char lists (recursion over
the haystack). -/
def listIncB : List Char → List Char → Bool
  | [], needle => needle.isEmpty
  | h :: hs, needle => listStarts (h :: hs) needle || listIncB hs needle

/-- One topic record of the simulated `KNOWLEDGE_BASE`. -/
structure SearchRecord where
  title : String
  content : String
  url : String
deriving DecidableEq

/-- Python's `needle in hay` on strings. -/
def strIncB (hay needle : String) : Bool := listIncB hay.data needle.data

/-- The "langgraph" record. -/
def kbLanggraph : SearchRecord :=
  ⟨"LangGraph - Build Stateful AI Agents",
   "LangGraph is a library for building stateful, multi-actor applications with LLMs. It extends LangChain with cyclic computational capabilities, enabling complex agent workflows. Key features: State management, Conditional edges, Parallel execution, Human-in-the-loop.",
   "https://langchain-ai.github.io/langgraph/"⟩

/-- The "react agent" record. -/
def kbReactAgent : SearchRecord :=
  ⟨"ReAct: Synergizing Reasoning and Acting in Language Models",
   "ReAct (Reasoning + Acting) is a paradigm where LLMs interleave reasoning traces and actions. The agent thinks step-by-step (Thought), takes an action (Action), and observes the result (Observation). This loop continues until the task is complete.",
   "https://arxiv.org/abs/2210.03629"⟩

/-- The "gemini api" record. -/
def kbGeminiApi : SearchRecord :=
  ⟨"Google Gemini API Documentation",
   "Gemini is Google's most capable AI model family. The API provides access to Gemini 1.5 Pro, Gemini 1.5 Flash, and other models. Features include multimodal understanding, long context windows (up to 2M tokens), and function calling capabilities.",
   "https://ai.google.dev/docs"⟩

/-- The "langchain" record. -/
def kbLangchain : SearchRecord :=
  ⟨"LangChain - Build LLM Applications",
   "LangChain is a framework for developing applications powered by language models. It provides modules for prompts, models, memory, chains, agents, and tools. LangChain Expression Language (LCEL) enables easy composition of components.",
   "https://python.langchain.com/"⟩

/-- The "python" record. -/
def kbPython : SearchRecord :=
  ⟨"Python Programming Language",
   "Python is a high-level, general-purpose programming language. Current stable version is Python 3.12. Known for readability and extensive libraries. Widely used in AI/ML, web development, data science, and automation.",
   "https://www.python.org/"⟩

/-- The "weather" record; its content interpolates the date at module
load time, so it is parameterized by that date string. -/
def kbWeather (today : String) : SearchRecord :=
  ⟨"Current Weather Information",
   "Weather data as of " ++ today ++ ": Temperature varies by location. For accurate weather, please specify a city. Demo shows: New York - 45°F, London - 50°F, Tokyo - 55°F, Sydney - 75°F.",
   "https://weather.example.com/"⟩

/-- The `KNOWLEDGE_BASE` dictionary, in insertion order. -/
def knowledgeBase (today : String) : List (String × SearchRecord) :=
  [("langgraph", kbLanggraph),
   ("react agent", kbReactAgent),
   ("gemini api", kbGeminiApi),
   ("langchain", kbLangchain),
   ("python", kbPython),
   ("weather", kbWeather today)]

/-- Helper for `pySplit`: split at spaces, accumulating the current word
reversed. -/
def splitSpaceAux : List Char → List Char → List String
  | [], acc => [⟨acc.reverse⟩]
  | c :: cs, acc =>
    if c = ' ' then ⟨acc.reverse⟩ :: splitSpaceAux cs []
    else splitSpaceAux cs (c :: acc)

/-- `key.split()` on the space-separated knowledge-base keys. -/
def pySplit (s : String) : List String := splitSpaceAux s.data []

/-- The per-key match test of `web_search`:
`key in query_lower or any(word in query_lower for word in key.split())`. -/
def keyMatches (key queryLower : String) : Bool :=
  strIncB queryLower key || (pySplit key).any (fun w => strIncB queryLower w)

/-- The matched records, in knowledge-base order. -/
def searchResults (today query : String) : List SearchRecord :=
  ((knowledgeBase today).filter (fun p => keyMatches p.1 (pyLower query))).map
    (fun p => p.2)

/-- The numbered-list body of the results, starting at index `i`
(`enumerate(results, 1)` with the three `output +=` lines). -/
def formatEntries : Nat → List SearchRecord → String
  | _, [] => ""
  | i, r :: rs =>
    toString i ++ ". **" ++ r.title ++ "**\n" ++ "   " ++ r.content ++ "\n" ++
      "   Source: " ++ r.url ++ "\n\n" ++ formatEntries (i + 1) rs

/-- The fallback text returned when nothing matches. -/
def noResultsMsg (query : String) : String :=
  "Search results for '" ++ query ++ "':\n" ++
    "No specific results found in demo knowledge base.\n" ++
    "In production, this would return real web search results.\n" ++
    "Tip: Try searching for 'LangGraph', 'ReAct agent', 'Gemini API', or 'Python'."

/-- `web_search`: case-insensitive match of the query against the fixed
topic records; all matches formatted as a numbered list, or the fallback
message when nothing matches. -/
def webSearch (today query : String) : String :=
  if (searchResults today query).isEmpty then noResultsMsg query
  else "Search results for '" ++ query ++ "':\n\n" ++
    formatEntries 1 (searchResults today query)

/-- Every record in the list appears, title included, in the numbered
body. -/
theorem formatEntries_inc_title :
    ∀ (rs : List SearchRecord) (i : Nat) (r : SearchRecord), r ∈ rs →
      strInc r.title (formatEntries i rs) := by
  intro rs
  induction rs with
  | nil => intro i r h; exact absurd h (List.not_mem_nil r)
  | cons x xs ih =>
    intro i r h
    rcases List.mem_cons.mp h with heq | hmem
    · subst heq
      have : formatEntries i (r :: xs) =
          (toString i ++ ". **") ++ r.title ++
          ("**\n" ++ "   " ++ r.content ++ "\n" ++ "   Source: " ++ r.url ++ "\n\n" ++
            formatEntries (i + 1) xs) := by
        simp [formatEntries, String.ext_iff]
      rw [this]
      exact strInc_mid _ _ _
    · have : formatEntries i (x :: xs) =
          (toString i ++ ". **" ++ x.title ++ "**\n" ++ "   " ++ x.content ++ "\n" ++
            "   Source: " ++ x.url ++ "\n\n") ++ formatEntries (i + 1) xs := by
        simp [formatEntries, String.ext_iff]
      rw [this]
      exact strInc_append_left _ _ _ (ih (i + 1) r hmem)

/-- C6: for every query, when no topic record matches, `web_search`
returns exactly the "no specific results" fallback text (which suggests
topics to try); when records match, the returned numbered list contains
every matched record's title — in particular the known title of a matched
topic. -/
theorem web_search_results (today query : String) :
    (searchResults today query = [] → webSearch today query = noResultsMsg query) ∧
    (∀ r ∈ searchResults today query, strInc r.title (webSearch today query)) := by
  constructor
  · intro h
    unfold webSearch
    rw [h]
    rfl
  · intro r hmem
    have hne : (searchResults today query).isEmpty = false := by
      cases hres : searchResults today query with
      | nil => rw [hres] at hmem; exact absurd hmem (List.not_mem_nil r)
      | cons a as => rfl
    unfold webSearch
    rw [hne]
    show strInc r.title ("Search results for '" ++ query ++ "':\n\n" ++
      formatEntries 1 (searchResults today query))
    have : "Search results for '" ++ query ++ "':\n\n" ++
        formatEntries 1 (searchResults today query) =
        ("Search results for '" ++ query ++ "':\n\n") ++
        formatEntries 1 (searchResults today query) := by
      simp [String.ext_iff]
    rw [this]
    exact strInc_append_left _ _ _ (formatEntries_inc_title _ 1 r hmem)

set_option maxRecDepth 100000 in
/-- Witness for C6: `web_search("LangGraph")` contains the known LangGraph
title, and `web_search("zzz_no_match")` is exactly the fallback text. -/
theorem web_search_results_witness :
    strInc kbLanggraph.title (webSearch "2025-01-01" "LangGraph") ∧
    webSearch "2025-01-01" "zzz_no_match" = noResultsMsg "zzz_no_match" := by
  constructor
  · exact (web_search_results "2025-01-01" "LangGraph").2 kbLanggraph (by decide)
  · exact (web_search_results "2025-01-01" "zzz_no_match").1 (by decide)

end Tools

namespace Calc

/-
The calculator tool runs `eval(expression, {"__builtins__": {}}, safe_dict)`
inside try/except and formats the outcome.  The embedding models the
fragment of Python expression evaluation reachable through that namespace:
int, float and string literals, names, unary minus, the binary operators
`+ - * / // % ** <`, and calls.  Floats are idealized as rationals and the
transcendental `math` functions (together with the float values of
`math.pi` / `math.e`) are an external-library parameter, like the language
model: every theorem below holds for every implementation of them.
-/

/-- Binary operators of the modelled Python fragment. -/
inductive BinOp where
  | add | sub | mul | div | floordiv | mod | pow | lt
deriving DecidableEq

/-- Python expressions handed to `eval` (the modelled fragment). -/
inductive Expr where
  | intLit (n : Int)
  | floatLit (q : ℚ)
  | strLit (s : String)
  | name (n : String)
  | neg (a : Expr)
  | binop (op : BinOp) (a b : Expr)
  | call (f : Expr) (args : List Expr)

/-- The function objects stored in `safe_dict`. -/
inductive MathFn where
  | sqrt | pow | sin | cos | tan | log | log10 | exp | abs | round
deriving DecidableEq

/-- The exceptions `eval` can raise in this fragment; every one is caught
by the calculator's `except Exception`. -/
inductive PyExc where
  | nameError (n : String)
  | typeError (msg : String)
  | zeroDivision
  | valueError
deriving DecidableEq

/-- The external `math` C library boundary: transcendental functions on
(idealized) floats, plus the float constants `math.pi` and `math.e`. -/
structure MathImpl where
  sqrt : ℚ → Except PyExc ℚ
  powf : ℚ → ℚ → Except PyExc ℚ
  sin : ℚ → Except PyExc ℚ
  cos : ℚ → Except PyExc ℚ
  tan : ℚ → Except PyExc ℚ
  log : ℚ → Except PyExc ℚ
  log10 : ℚ → Except PyExc ℚ
  exp : ℚ → Except PyExc ℚ
  pi : ℚ
  e : ℚ

/-- Python runtime values of the fragment. -/
inductive PyVal where
  | int (n : Int)
  | float (q : ℚ)
  | bool (b : Bool)
  | str (s : String)
  | func (f : MathFn)
deriving DecidableEq

/-- Name lookup against `safe_dict` (globals carry empty `__builtins__`,
so any other name raises NameError). -/
def lookupSafe (impl : MathImpl) (n : String) : Option PyVal :=
  if n = "sqrt" then some (.func .sqrt)
  else if n = "pow" then some (.func .pow)
  else if n = "sin" then some (.func .sin)
  else if n = "cos" then some (.func .cos)
  else if n = "tan" then some (.func .tan)
  else if n = "log" then some (.func .log)
  else if n = "log10" then some (.func .log10)
  else if n = "exp" then some (.func .exp)
  else if n = "abs" then some (.func .abs)
  else if n = "round" then some (.func .round)
  else if n = "pi" then some (.float impl.pi)
  else if n = "e" then some (.float impl.e)
  else none

/-- Python's numeric tower for this fragment: bool coerces to int, int
coerces to float. -/
inductive NumVal where
  | int (n : Int)
  | float (q : ℚ)

/-- View a value as a number, if it is one (`bool` counts as 0/1). -/
def asNum : PyVal → Option NumVal
  | .int n => some (.int n)
  | .float q => some (.float q)
  | .bool b => some (.int (if b then 1 else 0))
  | _ => none

/-- Numeric value as a rational. -/
def numToQ : NumVal → ℚ
  | .int n => (n : ℚ)
  | .float q => q

/-- Integer-by-integer binary operators (Python semantics: `/` is true
division producing a float, `//` floors, `%` takes the divisor's sign,
`**` with a negative exponent produces a float). -/
def evalBinII (op : BinOp) (a b : Int) : Except PyExc PyVal :=
  match op with
  | .add => .ok (.int (a + b))
  | .sub => .ok (.int (a - b))
  | .mul => .ok (.int (a * b))
  | .div => if b = 0 then .error .zeroDivision else .ok (.float ((a : ℚ) / (b : ℚ)))
  | .floordiv => if b = 0 then .error .zeroDivision else .ok (.int (Int.fdiv a b))
  | .mod => if b = 0 then .error .zeroDivision else .ok (.int (Int.fmod a b))
  | .pow =>
    if 0 ≤ b then .ok (.int (a ^ b.toNat))
    else if a = 0 then .error .zeroDivision
    else .ok (.float (((a : ℚ) ^ (-b).toNat)⁻¹))
  | .lt => .ok (.bool (decide (a < b)))

/-- Float binary operators (at least one operand a float). -/
def evalBinQ (impl : MathImpl) (op : BinOp) (a b : ℚ) : Except PyExc PyVal :=
  match op with
  | .add => .ok (.float (a + b))
  | .sub => .ok (.float (a - b))
  | .mul => .ok (.float (a * b))
  | .div => if b = 0 then .error .zeroDivision else .ok (.float (a / b))
  | .floordiv =>
    if b = 0 then .error .zeroDivision else .ok (.float ((⌊a / b⌋ : Int) : ℚ))
  | .mod =>
    if b = 0 then .error .zeroDivision
    else .ok (.float (a - b * ((⌊a / b⌋ : Int) : ℚ)))
  | .pow => (impl.powf a b).map .float
  | .lt => .ok (.bool (decide (a < b)))

/-- Binary operator dispatch: string concatenation and comparison, the
numeric tower, TypeError otherwise. -/
def evalBin (impl : MathImpl) (op : BinOp) (va vb : PyVal) : Except PyExc PyVal :=
  match op, va, vb with
  | .add, .str s, .str t => .ok (.str (s ++ t))
  | .lt, .str s, .str t => .ok (.bool (decide (s < t)))
  | _, _, _ =>
    match asNum va, asNum vb with
    | some (.int a), some (.int b) => evalBinII op a b
    | some na, some nb => evalBinQ impl op (numToQ na) (numToQ nb)
    | _, _ => .error (.typeError "unsupported operand type(s)")

/-- Unary minus. -/
def evalNeg (v : PyVal) : Except PyExc PyVal :=
  match asNum v with
  | some (.int n) => .ok (.int (-n))
  | some (.float q) => .ok (.float (-q))
  | none => .error (.typeError "bad operand type for unary -")

/-- Round half to even (Python's `round` on a float). -/
def roundHalfEven (q : ℚ) : Int :=
  if q - (⌊q⌋ : ℚ) < 1 / 2 then ⌊q⌋
  else if (1 : ℚ) / 2 < q - (⌊q⌋ : ℚ) then ⌊q⌋ + 1
  else if ⌊q⌋ % 2 = 0 then ⌊q⌋ else ⌊q⌋ + 1

/-- Apply a unary `math` function: coerce the argument to float, delegate
to the external library. -/
def applyUnary (g : ℚ → Except PyExc ℚ) (v : PyVal) : Except PyExc PyVal :=
  match asNum v with
  | some nv => (g (numToQ nv)).map .float
  | none => .error (.typeError "must be a real number")

/-- Call one of the `safe_dict` functions. -/
def evalCall (impl : MathImpl) (f : MathFn) (args : List PyVal) : Except PyExc PyVal :=
  match f, args with
  | .abs, [v] =>
    match asNum v with
    | some (.int n) => .ok (.int |n|)
    | some (.float q) => .ok (.float |q|)
    | none => .error (.typeError "bad operand type for abs()")
  | .round, [v] =>
    match asNum v with
    | some (.int n) => .ok (.int n)
    | some (.float q) => .ok (.int (roundHalfEven q))
    | none => .error (.typeError "must be a real number")
  | .pow, [a, b] =>
    match asNum a, asNum b with
    | some na, some nb => (impl.powf (numToQ na) (numToQ nb)).map .float
    | _, _ => .error (.typeError "must be a real number")
  | .sqrt, [v] => applyUnary impl.sqrt v
  | .sin, [v] => applyUnary impl.sin v
  | .cos, [v] => applyUnary impl.cos v
  | .tan, [v] => applyUnary impl.tan v
  | .log, [v] => applyUnary impl.log v
  | .log10, [v] => applyUnary impl.log10 v
  | .exp, [v] => applyUnary impl.exp v
  | _, _ => .error (.typeError "wrong number of arguments")

mutual

/-- `eval` on the modelled fragment: literals, `safe_dict` name lookup
(NameError otherwise — the evaluation order matches Python, which
evaluates the function position of a call before its arguments), operators
and calls. -/
def evalExpr (impl : MathImpl) : Expr → Except PyExc PyVal
  | .intLit n => .ok (.int n)
  | .floatLit q => .ok (.float q)
  | .strLit s => .ok (.str s)
  | .name n =>
    match lookupSafe impl n with
    | some v => .ok v
    | none => .error (.nameError n)
  | .neg a => do evalNeg (← evalExpr impl a)
  | .binop op a b => do
    let va ← evalExpr impl a
    let vb ← evalExpr impl b
    evalBin impl op va vb
  | .call f args => do
    let vf ← evalExpr impl f
    let vargs ← evalArgs impl args
    match vf with
    | .func fn => evalCall impl fn vargs
    | _ => .error (.typeError "object is not callable")

/-- Evaluate call arguments left to right. -/
def evalArgs (impl : MathImpl) : List Expr → Except PyExc (List PyVal)
  | [] => .ok []
  | e :: es => do
    let v ← evalExpr impl e
    let vs ← evalArgs impl es
    .ok (v :: vs)

end

/-- Decimal digits of a rational in [0, 1), up to the given count. -/
def fracDigits : Nat → ℚ → String
  | 0, _ => ""
  | n + 1, q =>
    if q = 0 then ""
    else toString (⌊q * 10⌋.toNat) ++ fracDigits n (q * 10 - (⌊q * 10⌋ : ℚ))

/-- Decimal rendering of an idealized float (Python renders the shortest
round-tripping decimal of the binary64 value; no claim depends on this
rendering). -/
def floatRepr (q : ℚ) : String :=
  (if q < 0 then "-" else "") ++ toString (⌊|q|⌋.toNat) ++ "." ++
    (if fracDigits 17 (|q| - (⌊|q|⌋ : ℚ)) = "" then "0"
     else fracDigits 17 (|q| - (⌊|q|⌋ : ℚ)))

/-- The name of a `safe_dict` function. -/
def mathFnName : MathFn → String
  | .sqrt => "sqrt"
  | .pow => "pow"
  | .sin => "sin"
  | .cos => "cos"
  | .tan => "tan"
  | .log => "log"
  | .log10 => "log10"
  | .exp => "exp"
  | .abs => "abs"
  | .round => "round"

/-- `f"Result: {result}"`'s rendering of the value. -/
def pyRepr : PyVal → String
  | .int n => toString n
  | .float q => floatRepr q
  | .bool b => if b then "True" else "False"
  | .str s => s
  | .func f => "<built-in function " ++ mathFnName f ++ ">"

/-- `str(e)` for the caught exception. -/
def excMsg : PyExc → String
  | .nameError n => "name '" ++ n ++ "' is not defined"
  | .typeError m => m
  | .zeroDivision => "division by zero"
  | .valueError => "math domain error"

/-- The `calculator` tool: evaluate inside try/except; success yields
`"Result: ..."`, any exception is caught and yields
`"Error evaluating expression: ..."`. -/
def calculator (impl : MathImpl) (e : Expr) : String :=
  match evalExpr impl e with
  | .ok v => "Result: " ++ pyRepr v
  | .error exc => "Error evaluating expression: " ++ excMsg exc

/-- A concrete stand-in for the external `math` library, used to state
closed counterexamples and witnesses. -/
def dummyImpl : MathImpl :=
  ⟨fun _ => .ok 0, fun _ _ => .ok 0, fun _ => .ok 0, fun _ => .ok 0,
   fun _ => .ok 0, fun _ => .ok 0, fun _ => .ok 0, fun _ => .ok 0,
   3.141592653589793, 2.718281828459045⟩

/-- Counterexample to C1 as stated: the expression `1 < 2` uses the
symbol `<`, which is outside the allow-list of operators, yet the
calculator evaluates it to "Result: True" instead of rejecting it with a
textual error. -/
theorem calculator_evaluates_disallowed_operator :
    calculator dummyImpl (.binop .lt (.intLit 1) (.intLit 2)) = "Result: True" ∧
    ∀ s, calculator dummyImpl (.binop .lt (.intLit 1) (.intLit 2)) ≠
      "Error evaluating expression: " ++ s := by
  constructor
  · rfl
  · intro s h
    have h2 : ("Result: True" : String) = "Error evaluating expression: " ++ s := h
    have h3 := congrArg (fun t : String => t.data.length) h2
    simp only [String.data_append, List.length_append] at h3
    rw [show ("Result: True" : String).data.length = 12 from rfl,
      show ("Error evaluating expression: " : String).data.length = 29 from rfl] at h3
    omega

/-- C1 (amended): any expression whose function position is a name outside
the `safe_dict` allow-list is rejected — the lookup raises NameError
before anything is executed, and the calculator returns it as a textual
error (the empty `__builtins__` leaves no other name in scope). -/
theorem calculator_rejects_unknown_names (impl : MathImpl) (n : String)
    (args : List Expr) (h : lookupSafe impl n = none) :
    calculator impl (.call (.name n) args) =
      "Error evaluating expression: " ++ excMsg (.nameError n) := by
  have h1 : evalExpr impl (Expr.name n) = .error (.nameError n) := by
    unfold evalExpr
    rw [h]
  have h2 : evalExpr impl (Expr.call (Expr.name n) args) = .error (.nameError n) := by
    unfold evalExpr
    rw [h1]
    rfl
  unfold calculator
  rw [h2]

/-- Witness for C1 (amended): `calculator("__import__('os')")` returns the
NameError text and never executes an import. -/
theorem calculator_rejects_unknown_names_witness :
    calculator dummyImpl (.call (.name "__import__") [.strLit "os"]) =
      "Error evaluating expression: name '__import__' is not defined" := by
  rw [calculator_rejects_unknown_names dummyImpl "__import__" [.strLit "os"] (by decide)]
  rfl

/-- C7: the calculator never throws across the tool boundary — for every
expression (and every behavior of the external math library) it returns a
string, either a result or the recovered error text. -/
theorem calculator_never_throws (impl : MathImpl) (e : Expr) :
    (∃ s, calculator impl e = "Result: " ++ s) ∨
    (∃ s, calculator impl e = "Error evaluating expression: " ++ s) := by
  cases hval : evalExpr impl e with
  | error exc =>
    right
    exact ⟨excMsg exc, by unfold calculator; rw [hval]⟩
  | ok v =>
    left
    exact ⟨pyRepr v, by unfold calculator; rw [hval]⟩

end Calc

namespace Demo

/-- One agent interaction started by `main.py`: a streamed run
(`agent.stream(query)` consumed to completion) or a direct
`agent.invoke(query)` call.  Each one executes the graph — and therefore
calls the model — from scratch on the same query. -/
inductive AgentCall where
  | stream
  | invokeCall
deriving DecidableEq

/-- The agent interactions `run_demo_queries` performs for one demo query
(main.py lines 69-81): the `if verbose` block streams, the `else` block
invokes; afterwards `final_response = agent.invoke(query) if not verbose
else "See steps above"` invokes again only when verbose is false. -/
def demoQueryCalls (verbose : Bool) : List AgentCall :=
  (if verbose then [AgentCall.stream] else [AgentCall.invokeCall]) ++
    (if verbose then [] else [AgentCall.invokeCall])

/-- The agent interactions `run_single_query` performs (main.py lines
184-191): stream when verbose, then always one more `invoke`. -/
def singleQueryCalls (verbose : Bool) : List AgentCall :=
  (if verbose then [AgentCall.stream] else []) ++ [AgentCall.invokeCall]

/-- Counterexample to C9 as stated: in demo mode with the verbose flag
true, the agent is executed exactly once, via `stream` — there is no
second `invoke` on the same query. -/
theorem demo_verbose_runs_agent_once :
    demoQueryCalls true = [AgentCall.stream] ∧
    demoQueryCalls true ≠ [AgentCall.stream, AgentCall.invokeCall] := by
  constructor
  · rfl
  · intro h
    exact absurd h (by decide)

/-- C9 (amended): the duplicate execution in demo mode happens when the
verbose flag is false — `agent.invoke(query)` is called twice, the first
result discarded; with verbose true the demo runs the agent once, via
`stream`.  (It is `run_single_query`, the single-query mode, that streams
and then invokes again when verbose is true.) -/
theorem demo_duplicate_invoke_when_not_verbose :
    demoQueryCalls false = [AgentCall.invokeCall, AgentCall.invokeCall] ∧
    demoQueryCalls true = [AgentCall.stream] ∧
    singleQueryCalls true = [AgentCall.stream, AgentCall.invokeCall] := by
  refine ⟨rfl, rfl, rfl⟩

end Demo
